import Mathlib

/-!
Verification of the Night Writer core (terminal_automation.py): the
rate-limit parser, inactivity monitor, scheduler, task executor and session
orchestrator, shallowly embedded over `List Char` strings and a `Nat`
second-count clock.  Python exceptions are modelled with `Option` (a `none`
result stands for a raised exception), and regular-expression searches are
hand-compiled to leftmost-position, greedy-with-backtracking matchers that
mirror Python `re.search` on the concrete patterns the source uses.
-/

/-- ASCII lowercase of a string, as Python `str.lower` acts on the
characters these claims involve. -/
def strLower (s : List Char) : List Char := s.map Char.toLower

/-- Python `\s` whitespace class (ASCII part). -/
def isPySpace (c : Char) : Bool :=
  c = ' ' || c = '\t' || c = '\n' || c = '\r' || c = '\x0b' || c = '\x0c'

/-- Python `\d` digit class (ASCII part). -/
def isDigitCh (c : Char) : Bool :=
  c ∈ ['0', '1', '2', '3', '4', '5', '6', '7', '8', '9']

/-- Python `str.strip()`. -/
def pyStrip (s : List Char) : List Char :=
  ((s.dropWhile isPySpace).reverse.dropWhile isPySpace).reverse

/-- Python `str.split(sep)` for a one-character separator. -/
def splitOnChar (sep : Char) : List Char → List (List Char)
  | [] => [[]]
  | c :: cs =>
    let r := splitOnChar sep cs
    if c = sep then [] :: r
    else
      match r with
      | [] => [[c]]
      | h :: t => (c :: h) :: t

/-- Python `"\n".join(lines)`. -/
def joinLines (ls : List (List Char)) : List Char := List.intercalate ['\n'] ls

/-- Python `lines[-n:]`. -/
def lastN (n : Nat) (l : List (List Char)) : List (List Char) :=
  l.drop (l.length - n)

/-- Python `str.replace(pat, "")` (remove every occurrence, left to right),
with explicit fuel for termination. -/
def removeAllAux (pat : List Char) : Nat → List Char → List Char
  | 0, s => s
  | fuel + 1, s =>
    if pat ≠ [] ∧ pat.isPrefixOf s then removeAllAux pat fuel (s.drop pat.length)
    else
      match s with
      | [] => []
      | c :: cs => c :: removeAllAux pat fuel cs

def removeAll (pat s : List Char) : List Char := removeAllAux pat s.length s

/-- Numeric value of a digit string. -/
def natOfDigits (s : List Char) : Nat := s.foldl (fun a c => a * 10 + (c.toNat - 48)) 0

/-- Python `int(str)` on the nonnegative decimal strings that occur here;
`none` models a raised `ValueError`. -/
def pyInt (s : List Char) : Option Nat :=
  let t := pyStrip s
  if t ≠ [] ∧ t.all isDigitCh then some (natOfDigits t) else none

/-- The needle occurs in the haystack starting at position `i`. -/
def isSubstrAt (needle hay : List Char) (i : Nat) : Bool :=
  needle.isPrefixOf (hay.drop i)

/-- Python `needle in hay`. -/
def containsSub (needle hay : List Char) : Bool :=
  (List.range (hay.length + 1)).any (fun i => isSubstrAt needle hay i)

/-- The slice `hay[i:j]` is free of newlines (a Python `.*` may not cross one). -/
def segNoNewline (hay : List Char) (i j : Nat) : Bool :=
  ((hay.drop i).take (j - i)).all (fun c => c ≠ '\n')

/-- `re.search(A + ".*" + B, hay)` succeeds: `A` somewhere, `B` after it on
the same line. -/
def dotStarMatch2 (a b hay : List Char) : Bool :=
  (List.range (hay.length + 1)).any fun i =>
    isSubstrAt a hay i &&
      (List.range (hay.length + 1)).any fun j =>
        decide (i + a.length ≤ j) && isSubstrAt b hay j && segNoNewline hay (i + a.length) j

/-- `re.search(A + ".*" + B + ".*" + C, hay)` succeeds. -/
def dotStarMatch3 (a b c hay : List Char) : Bool :=
  (List.range (hay.length + 1)).any fun i =>
    isSubstrAt a hay i &&
      (List.range (hay.length + 1)).any fun j =>
        decide (i + a.length ≤ j) && isSubstrAt b hay j && segNoNewline hay (i + a.length) j &&
          (List.range (hay.length + 1)).any fun k =>
            decide (j + b.length ≤ k) && isSubstrAt c hay k && segNoNewline hay (j + b.length) k

/-- Consume a literal at position `i`, returning the end position. -/
def litAt (lit s : List Char) (i : Nat) : Option Nat :=
  if isSubstrAt lit s i then some (i + lit.length) else none

/-- Character at position `i`. -/
def chAt (s : List Char) (i : Nat) : Option Char := (s.drop i).head?

/-- Length of the maximal whitespace run at `i`. -/
def spaceRunLen (s : List Char) (i : Nat) : Nat :=
  ((s.drop i).takeWhile isPySpace).length

/-- `\s+` (greedy; nothing that can follow it here matches a space, so the
maximal run is exact). -/
def sp1 (s : List Char) (i : Nat) : Option Nat :=
  if spaceRunLen s i ≥ 1 then some (i + spaceRunLen s i) else none

/-- `\s*` (greedy, same remark). -/
def sp0 (s : List Char) (i : Nat) : Nat := i + spaceRunLen s i

/-- `\d{1,2}` followed by a literal, greedy with backtracking (two digits
first, then one); returns the end position and the matched text. -/
def digits12ThenLit (lit s : List Char) (i : Nat) : Option (Nat × List Char) :=
  match chAt s i with
  | none => none
  | some c0 =>
    if isDigitCh c0 then
      let oneDigit := (litAt lit s (i + 1)).map (fun e => (e, c0 :: lit))
      match chAt s (i + 1) with
      | none => oneDigit
      | some c1 =>
        if isDigitCh c1 then
          match litAt lit s (i + 2) with
          | some e => some (e, c0 :: c1 :: lit)
          | none => oneDigit
        else oneDigit
    else none

/-- The group `(\d{1,2}am|\d{1,2}pm)`. -/
def bareTok (s : List Char) (i : Nat) : Option (Nat × List Char) :=
  (digits12ThenLit ("am".data) s i).orElse (fun _ => digits12ThenLit ("pm".data) s i)

/-- The group `(\d{1,2}:\d{2})`, greedy with backtracking on `\d{1,2}`. -/
def hmTok (s : List Char) (i : Nat) : Option (Nat × List Char) :=
  match chAt s i with
  | none => none
  | some c0 =>
    if isDigitCh c0 then
      let oneDigit :=
        match chAt s (i + 1), chAt s (i + 2), chAt s (i + 3) with
        | some k, some d1, some d2 =>
          if k = ':' && isDigitCh d1 && isDigitCh d2 then
            some (i + 4, [c0, ':', d1, d2])
          else none
        | _, _, _ => none
      match chAt s (i + 1) with
      | none => none
      | some c1 =>
        if isDigitCh c1 then
          match chAt s (i + 2), chAt s (i + 3), chAt s (i + 4) with
          | some k, some d1, some d2 =>
            if k = ':' && isDigitCh d1 && isDigitCh d2 then
              some (i + 5, [c0, c1, ':', d1, d2])
            else oneDigit
          | _, _, _ => oneDigit
        else oneDigit
    else none

/-- `\s*(am|pm)?` at position `i`: the optional second group. -/
def optAmPm (s : List Char) (i : Nat) : Option (List Char) :=
  let j := sp0 s i
  match litAt ("am".data) s j with
  | some _ => some ("am".data)
  | none =>
    match litAt ("pm".data) s j with
    | some _ => some ("pm".data)
    | none => none

/-- Leftmost-position search: try `f` at `i`, `i+1`, ... while fuel lasts. -/
def searchFrom (f : Nat → Option α) (i : Nat) : Nat → Option α
  | 0 => none
  | fuel + 1 =>
    match f i with
    | some x => some x
    | none => searchFrom f (i + 1) fuel

/-- Try `f` at `n`, `n-1`, ..., `0` (greedy `.*` prefers the longest stretch). -/
def descFindAux (f : Nat → Option α) : Nat → Option α
  | 0 => f 0
  | n + 1 =>
    match f (n + 1) with
    | some x => some x
    | none => descFindAux f n

/-- `resets?` tail handling: greedy optional `s` with backtracking. -/
def optS (f : Nat → Option α) (s : List Char) (j0 : Nat) : Option α :=
  match chAt s j0 with
  | some c => if c = 's' then (f (j0 + 1)).orElse (fun _ => f j0) else f j0
  | none => f j0

/-- `\s+(\d{1,2}am|\d{1,2}pm)` from position `j`: the bare-hour group. -/
def afterSpBare (s : List Char) (j : Nat) : Option (List Char) :=
  match sp1 s j with
  | none => none
  | some j1 => (bareTok s j1).map (fun p => p.2)

/-- `\s+(\d{1,2}:\d{2})\s*(am|pm)?` from position `j`: both groups. -/
def afterSpHM (s : List Char) (j : Nat) : Option (List Char × Option (List Char)) :=
  match sp1 s j with
  | none => none
  | some j1 =>
    match hmTok s j1 with
    | none => none
    | some (e, g1) => some (g1, optAmPm s e)

/-- `\s+at\s+(\d{1,2}:\d{2})\s*(am|pm)?` from position `j`. -/
def afterSpAtHM (s : List Char) (j : Nat) : Option (List Char × Option (List Char)) :=
  match sp1 s j with
  | none => none
  | some j1 =>
    match litAt ("at".data) s j1 with
    | none => none
    | some j2 => afterSpHM s j2

/-- Pattern `5-hour limit reached.*∙.*resets\s+(\d{1,2}am|\d{1,2}pm)` tried at
position `i`, with greedy `.*` (longest stretch first). -/
def tryP1 (s : List Char) (i : Nat) : Option (List Char × Option (List Char)) :=
  match litAt ("5-hour limit reached".data) s i with
  | none => none
  | some j0 =>
    descFindAux
      (fun j =>
        if j0 ≤ j ∧ chAt s j = some '∙' ∧ segNoNewline s j0 j = true then
          descFindAux
            (fun k =>
              if j + 1 ≤ k ∧ segNoNewline s (j + 1) k = true then
                match litAt ("resets".data) s k with
                | none => none
                | some j2 => (afterSpBare s j2).map (fun g => (g, (none : Option (List Char))))
              else none)
            s.length
        else none)
      s.length

/-- Pattern `resets?\s+(\d{1,2}am|\d{1,2}pm)` tried at position `i`. -/
def tryP2 (s : List Char) (i : Nat) : Option (List Char × Option (List Char)) :=
  match litAt ("reset".data) s i with
  | none => none
  | some j0 => (optS (afterSpBare s) s j0).map (fun g => (g, none))

/-- Pattern `resets?\s+(\d{1,2}:\d{2})\s*(am|pm)?` tried at position `i`. -/
def tryP3 (s : List Char) (i : Nat) : Option (List Char × Option (List Char)) :=
  match litAt ("reset".data) s i with
  | none => none
  | some j0 => optS (afterSpHM s) s j0

/-- Pattern `resets?\s+at\s+(\d{1,2}:\d{2})\s*(am|pm)?` tried at position `i`. -/
def tryP4 (s : List Char) (i : Nat) : Option (List Char × Option (List Char)) :=
  match litAt ("reset".data) s i with
  | none => none
  | some j0 => optS (afterSpAtHM s) s j0

/-- Pattern `next\s+reset\s+(\d{1,2}:\d{2})\s*(am|pm)?` tried at position `i`. -/
def tryP5 (s : List Char) (i : Nat) : Option (List Char × Option (List Char)) :=
  match litAt ("next".data) s i with
  | none => none
  | some j0 =>
    match sp1 s j0 with
    | none => none
    | some j1 =>
      match litAt ("reset".data) s j1 with
      | none => none
      | some j2 => afterSpHM s j2

/-- Pattern `available\s+at\s+(\d{1,2}:\d{2})\s*(am|pm)?` tried at position `i`. -/
def tryP6 (s : List Char) (i : Nat) : Option (List Char × Option (List Char)) :=
  match litAt ("available".data) s i with
  | none => none
  | some j0 => afterSpAtHM s j0

/-- `re.search` for one extraction pattern: leftmost position wins. -/
def searchPat (tryAt : List Char → Nat → Option (List Char × Option (List Char)))
    (s : List Char) : Option (List Char × Option (List Char)) :=
  searchFrom (tryAt s) 0 (s.length + 1)

/-- Post-processing of a successful extraction match
(`RateLimitParser._extract_reset_time`, lines 202-228): bare `am`/`pm`
tokens are returned as matched; `H:MM` tokens are rebuilt as
`"{hour}:{minute} {am_pm}"`, defaulting a missing meridiem to `am` for
hour < 12 and `pm` otherwise (hours above 12 reduced by 12). -/
def postProcess (g1 : List Char) (g2 : Option (List Char)) : List Char :=
  if containsSub ("am".data) g1 || containsSub ("pm".data) g1 then g1
  else
    let hm :=
      if containsSub (":".data) g1 then
        match splitOnChar ':' g1 with
        | [a, b] => (a, b)
        | _ => (g1, ("00".data))
      else (g1, ("00".data))
    match g2 with
    | some ap => hm.1 ++ (":".data) ++ hm.2 ++ (" ".data) ++ ap
    | none =>
      let h := natOfDigits hm.1
      if h < 12 then hm.1 ++ (":".data) ++ hm.2 ++ (" am".data)
      else if h > 12 then (Nat.toDigits 10 (h - 12)) ++ (":".data) ++ hm.2 ++ (" pm".data)
      else hm.1 ++ (":".data) ++ hm.2 ++ (" pm".data)

/-- `RateLimitParser._extract_reset_time`: try the six reset-time patterns in
order against the lowercased output; post-process the first match. -/
def RateLimitParser.extract_reset_time (output : List Char) : Option (List Char) :=
  let low := strLower output
  match searchPat tryP1 low with
  | some (g1, g2) => some (postProcess g1 g2)
  | none =>
    match searchPat tryP2 low with
    | some (g1, g2) => some (postProcess g1 g2)
    | none =>
      match searchPat tryP3 low with
      | some (g1, g2) => some (postProcess g1 g2)
      | none =>
        match searchPat tryP4 low with
        | some (g1, g2) => some (postProcess g1 g2)
        | none =>
          match searchPat tryP5 low with
          | some (g1, g2) => some (postProcess g1 g2)
          | none =>
            match searchPat tryP6 low with
            | some (g1, g2) => some (postProcess g1 g2)
            | none => none

/-- The five `rate_limit_patterns`, matched against the lowercased output. -/
def RateLimitParser.detectPatterns (low : List Char) : Bool :=
  dotStarMatch2 ("5-hour limit reached".data) ("resets".data) low ||
  dotStarMatch3 ("5-hour limit reached".data) ("∙".data) ("resets".data) low ||
  dotStarMatch2 ("rate limit reached".data) ("resets".data) low ||
  dotStarMatch2 ("limit reached".data) ("resets".data) low ||
  dotStarMatch2 ("quota exceeded".data) ("resets".data) low

/-- Result of `RateLimitParser.parse_output`. -/
structure RateLimitResult where
  rate_limit_detected : Bool
  reset_time : Option (List Char)
  message : Option (List Char)
deriving DecidableEq

/-- `RateLimitParser.parse_output` (lines 172-195): detect a rate-limit
phrase in the lowercased output and, if found, extract the reset token. -/
def RateLimitParser.parse_output (output : List Char) : RateLimitResult :=
  if RateLimitParser.detectPatterns (strLower output) then
    { rate_limit_detected := true
      reset_time := RateLimitParser.extract_reset_time output
      message := some (pyStrip output) }
  else { rate_limit_detected := false, reset_time := none, message := none }

/-- Task execution status (`TaskStatus`, lines 106-113). -/
inductive TaskStatus
  | pending
  | running
  | completed
  | failed
  | timeout
  | rate_limited
deriving DecidableEq

/-- A task (`Task`, lines 116-126); times are seconds on a linear clock. -/
structure NW.Task where
  id : Nat
  content : List Char
  status : TaskStatus
  start_time : Option Nat
  end_time : Option Nat
  output : List Char
  error : List Char
deriving DecidableEq

/-- `InactivityMonitor` state (lines 439-465): the timestamp/armed pair; the
mutex is irrelevant to the sequential semantics modelled here. -/
structure MonitorState where
  last_activity : Nat
  is_active : Bool
deriving DecidableEq

/-- `InactivityMonitor.update_activity` (lines 448-452). -/
def InactivityMonitor.update_activity (now : Nat) (_m : MonitorState) : MonitorState :=
  { last_activity := now, is_active := true }

/-- `InactivityMonitor.is_inactive` (lines 454-459). -/
def InactivityMonitor.is_inactive (timeout_seconds now : Nat) (m : MonitorState) : Bool :=
  if !m.is_active then false else decide (now - m.last_activity ≥ timeout_seconds)

/-- `InactivityMonitor.reset` (lines 461-465): sets `last_activity` to the
current time and disarms. -/
def InactivityMonitor.reset (now : Nat) (_m : MonitorState) : MonitorState :=
  { last_activity := now, is_active := false }

/-- Scheduler configuration, from `Configuration` (lines 128-146). -/
structure SchedConfig where
  start_time : List Char
  session_duration_hours : Nat
  max_tasks_per_session : Nat
deriving DecidableEq

/-- `Scheduler` mutable state (lines 966-972). -/
structure SchedState where
  session_start_time : Option Nat
  tasks_executed : Nat
  detected_reset_time : Option (List Char)
  rate_limit_detected : Bool
deriving DecidableEq

/-- Seconds in a day; the clock is linear (DST jumps are out of scope). -/
def secsPerDay : Nat := 86400

/-- Start of the day containing `t`. -/
def dayStart (t : Nat) : Nat := t / secsPerDay * secsPerDay

/-- `now.replace(hour=hh, minute=mm, second=0, microsecond=0)`; `none`
models the `ValueError` raised on an out-of-range field. -/
def replaceHM (now hh mm : Nat) : Option Nat :=
  if hh ≤ 23 ∧ mm ≤ 59 then some (dayStart now + hh * 3600 + mm * 60) else none

/-- The token-parsing block of `Scheduler.next_window_start` (lines 981-995):
lowercase/strip the recorded token, require an `am`/`pm` marker, strip the
markers, read `H[:MM]`, and apply the 12-hour adjustment.  `none` models a
`ValueError` (caught by the caller) or the fall-through when no marker is
present. -/
def Scheduler.parse_detected_reset (tok : List Char) : Option (Nat × Nat) :=
  let t := strLower (pyStrip tok)
  if containsSub ("am".data) t || containsSub ("pm".data) t then
    let tp := pyStrip (removeAll ("pm".data) (removeAll ("am".data) t))
    let hm : Option (Nat × Nat) :=
      if containsSub (":".data) tp then
        match splitOnChar ':' tp with
        | [a, b] =>
          match pyInt a, pyInt b with
          | some ha, some hb => some (ha, hb)
          | _, _ => none
        | _ => none
      else (pyInt tp).map (fun h => (h, 0))
    match hm with
    | none => none
    | some (h0, mm) =>
      let hh :=
        if containsSub ("pm".data) t ∧ h0 ≠ 12 then h0 + 12
        else if containsSub ("am".data) t ∧ h0 = 12 then 0
        else h0
      some (hh, mm)
  else none

/-- The detected-token branch of `Scheduler.next_window_start`
(lines 979-1006): parse the token against today, roll a past time forward
one day; `none` means the `try` block fell through to the fallback. -/
def Scheduler.tokenBranch (tok : List Char) (now : Nat) : Option Nat :=
  match Scheduler.parse_detected_reset tok with
  | none => none
  | some (hh, mm) =>
    match replaceHM now hh mm with
    | none => none
    | some rt => some (if rt ≤ now then rt + secsPerDay else rt)

/-- The configured-start-time fallback of `Scheduler.next_window_start`
(lines 1008-1014); `none` models an uncaught exception on a malformed
configured `start_time`. -/
def Scheduler.fallbackStart (cfg : SchedConfig) (now : Nat) : Option Nat :=
  match splitOnChar ':' cfg.start_time with
  | [a, b] =>
    match pyInt a, pyInt b with
    | some hh, some mm =>
      match replaceHM now hh mm with
      | none => none
      | some ts => some (if now < ts then ts else ts + secsPerDay)
    | _, _ => none
  | _ => none

/-- `Scheduler.next_window_start` (lines 974-1014). -/
def Scheduler.next_window_start (cfg : SchedConfig) (st : SchedState) (now : Nat) : Option Nat :=
  match st.detected_reset_time with
  | some tok =>
    match Scheduler.tokenBranch tok now with
    | some r => some r
    | none => Scheduler.fallbackStart cfg now
  | none => Scheduler.fallbackStart cfg now

/-- `Scheduler.wait_until_window` (lines 1016-1028), reduced to its effect on
the scheduler state once the window is reached at time `wake`. -/
def Scheduler.wait_until_window (st : SchedState) (wake : Nat) : SchedState :=
  { st with session_start_time := some wake, tasks_executed := 0 }

/-- `Scheduler.is_within_session_limit` (lines 1030-1046). -/
def Scheduler.is_within_session_limit (cfg : SchedConfig) (st : SchedState) (now : Nat) : Bool :=
  match st.session_start_time with
  | none => false
  | some s0 =>
    if now - s0 > cfg.session_duration_hours * 3600 then false
    else if st.tasks_executed ≥ cfg.max_tasks_per_session then false
    else true

/-- `Scheduler.record_task_execution` (lines 1048-1050). -/
def Scheduler.record_task_execution (st : SchedState) : SchedState :=
  { st with tasks_executed := st.tasks_executed + 1 }

/-- `Scheduler.update_rate_limit_info` (lines 1052-1057): the token is only
recorded when truthy (a previous token survives a `None`/empty update). -/
def Scheduler.update_rate_limit_info (st : SchedState) (detected : Bool)
    (reset_time : Option (List Char)) : SchedState :=
  { st with
    rate_limit_detected := detected
    detected_reset_time :=
      match reset_time with
      | some t => if t ≠ [] then some t else st.detected_reset_time
      | none => st.detected_reset_time }

/-- `Scheduler.wait_until_reset` (lines 1063-1083), reduced to its effect on
the scheduler state once the wait ends at time `wake`: with a detected
reset on record the session state and the rate-limit flag/token are reset;
otherwise it degrades to `wait_until_window`. -/
def Scheduler.wait_until_reset (st : SchedState) (wake : Nat) : SchedState :=
  if st.rate_limit_detected ∧ st.detected_reset_time.isSome then
    { st with
      session_start_time := some wake
      tasks_executed := 0
      rate_limit_detected := false
      detected_reset_time := none }
  else Scheduler.wait_until_window st wake

/-- Outcome of the pre-flight rate-limit check: either wait for a reset
(after recording the given token) or fall through and start sending tasks. -/
inductive PreflightAction
  | waitUntilReset (token : List Char)
  | proceed
deriving DecidableEq

/-- The line markers used to filter the tool's own log output out of a
captured sample (lines 1283-1287). -/
def TerminalAutomationSystem.logMarkers : List (List Char) :=
  [("- root - INFO -".data), ("- root - ERROR -".data), ("- root - WARNING -".data),
   ("night_writer".data), ("STARTING RATE LIMIT".data), ("CLIPBOARD METHOD".data),
   ("[_".data), ("] -".data), ("📋".data), ("🔍".data), ("⏰".data), ("🚀".data),
   ("Reset time:".data)]

/-- `TerminalAutomationSystem._check_and_wait_for_rate_limits`
(lines 1208-1354), as a function of the captured terminal content and the
current local hour.  With content: filter out the tool's own log lines,
parse only the last five lines, and wait for the detected reset when a
token was extracted.  Without content: before 4am a rate limit is assumed
(token `"4am"`) and the orchestrator waits; from 4am on it proceeds. -/
def TerminalAutomationSystem.check_and_wait_for_rate_limits
    (captured : List Char) (hour : Nat) : PreflightAction :=
  if captured.isEmpty then
    if hour < 4 then PreflightAction.waitUntilReset ("4am".data) else PreflightAction.proceed
  else
    let content :=
      if containsSub ("- root - INFO -".data) captured ||
          containsSub ("night_writer".data) (strLower captured) then
        let kept := (splitOnChar '\n' captured).filter
          (fun line => !(TerminalAutomationSystem.logMarkers.any (fun pat => containsSub pat line)))
        pyStrip (joinLines kept)
      else captured
    if content.isEmpty then PreflightAction.proceed
    else
      let recent := pyStrip (joinLines (lastN 5 (splitOnChar '\n' content)))
      let info := RateLimitParser.parse_output recent
      if info.rate_limit_detected then
        match info.reset_time with
        | some tok => PreflightAction.waitUntilReset tok
        | none => PreflightAction.proceed
      else PreflightAction.proceed

/-- The executor's pair of rate-limit fields (lines 832-833). -/
structure ExecFlags where
  rate_limit_detected : Bool
  detected_reset_time : Option (List Char)
deriving DecidableEq

/-- Executor configuration: the inactivity timeout and whether the channel
is an existing window (side-channel checks only run for those). -/
structure ExecConfig where
  timeout_seconds : Nat
  is_existing_window : Bool
deriving DecidableEq

/-- Per-iteration inputs to the monitoring loop of `execute_task`: channel
liveness, freshly drained output/error lines, and the result of the
side-channel `_check_rate_limit_during_task` probe were it consulted. -/
structure ExecIterInput where
  alive : Bool
  new_output : List (List Char)
  new_errors : List (List Char)
  side_detect : Bool
  side_token : Option (List Char)
deriving DecidableEq

/-- Local loop state of `execute_task` (lines 867-871 plus the shared
inactivity monitor). -/
structure ExecState where
  claude_started : Bool
  last_rate_limit_check : Nat
  output_lines : List (List Char)
  error_lines : List (List Char)
  monitor : MonitorState
deriving DecidableEq

/-- The `claude_working_indicators` start keywords (lines 890-893). -/
def TaskExecutor.indicators : List (List Char) :=
  [("thinking".data), ("analyzing".data), ("processing".data), ("generating".data),
   ("writing".data), ("creating".data), ("building".data), ("implementing".data),
   ("coding".data), ("working".data)]

/-- Output lines accumulated after draining this iteration's new output. -/
def TaskExecutor.outputAfter (st : ExecState) (inp : ExecIterInput) : List (List Char) :=
  st.output_lines ++ inp.new_output

/-- `full_output` (line 889): the accumulated output, joined and lowered. -/
def TaskExecutor.fullOutput (st : ExecState) (inp : ExecIterInput) : List Char :=
  strLower (joinLines (TaskExecutor.outputAfter st inp))

/-- Whether a start keyword is visible in the accumulated output. -/
def TaskExecutor.indicatorSeen (st : ExecState) (inp : ExecIterInput) : Bool :=
  TaskExecutor.indicators.any (fun ind => containsSub ind (TaskExecutor.fullOutput st inp))

/-- `claude_started` after this iteration's output processing (lines 895-898). -/
def TaskExecutor.startedAfter (st : ExecState) (inp : ExecIterInput) : Bool :=
  if !inp.new_output.isEmpty && !st.claude_started && TaskExecutor.indicatorSeen st inp then
    true
  else st.claude_started

/-- The rate-limit parse of the accumulated output (line 901), performed
only when new output arrived. -/
def TaskExecutor.outputDetect (st : ExecState) (inp : ExecIterInput) : RateLimitResult :=
  RateLimitParser.parse_output (TaskExecutor.fullOutput st inp)

/-- Monitor state after the output-processing block (lines 895-915): a
`reset` when the start signal first appears, then `update_activity` when
output arrived and the agent has started. -/
def TaskExecutor.monitorAfterOutput (now : Nat) (st : ExecState) (inp : ExecIterInput) :
    MonitorState :=
  let m1 :=
    if !inp.new_output.isEmpty && !st.claude_started && TaskExecutor.indicatorSeen st inp then
      InactivityMonitor.reset now st.monitor
    else st.monitor
  if !inp.new_output.isEmpty && TaskExecutor.startedAfter st inp then
    InactivityMonitor.update_activity now m1
  else m1

/-- Monitor state after the error-processing block as well (lines 917-921). -/
def TaskExecutor.monitorAfterErrors (now : Nat) (st : ExecState) (inp : ExecIterInput) :
    MonitorState :=
  if !inp.new_errors.isEmpty && TaskExecutor.startedAfter st inp then
    InactivityMonitor.update_activity now (TaskExecutor.monitorAfterOutput now st inp)
  else TaskExecutor.monitorAfterOutput now st inp

/-- Guard of the low-frequency side-channel rate-limit probe (lines 925-928):
existing window, agent started, monitor inactive, last probe over a minute
ago. -/
def TaskExecutor.sideGuard (cfg : ExecConfig) (t0 k : Nat) (st : ExecState)
    (inp : ExecIterInput) : Bool :=
  cfg.is_existing_window && TaskExecutor.startedAfter st inp &&
    InactivityMonitor.is_inactive cfg.timeout_seconds (t0 + k)
      (TaskExecutor.monitorAfterErrors (t0 + k) st inp) &&
    decide (t0 + k - st.last_rate_limit_check > 60)

/-- Result of one monitoring-loop iteration: break with a finished task and
updated executor flags, or continue with a new loop state. -/
inductive ExecIterResult
  | halt (t : NW.Task) (fl : ExecFlags)
  | next (st : ExecState)
deriving DecidableEq

/-- One iteration of the monitoring loop of `TaskExecutor.execute_task`
(lines 873-956), at iteration count `k` (one second per iteration, so the
clock reads `t0 + k`). -/
def TaskExecutor.iterStep (cfg : ExecConfig) (t0 : Nat) (task : NW.Task) (k : Nat)
    (inp : ExecIterInput) (st : ExecState) (fl : ExecFlags) : ExecIterResult :=
  if !inp.alive then
    ExecIterResult.halt
      { task with status := TaskStatus.failed
                  error := ("Terminal process terminated unexpectedly".data) } fl
  else if !inp.new_output.isEmpty && (TaskExecutor.outputDetect st inp).rate_limit_detected then
    ExecIterResult.halt
      { task with status := TaskStatus.rate_limited
                  output := joinLines (TaskExecutor.outputAfter st inp) }
      { rate_limit_detected := true
        detected_reset_time := (TaskExecutor.outputDetect st inp).reset_time }
  else if TaskExecutor.sideGuard cfg t0 k st inp && inp.side_detect then
    ExecIterResult.halt
      { task with status := TaskStatus.rate_limited
                  output := joinLines (TaskExecutor.outputAfter st inp) }
      { rate_limit_detected := true, detected_reset_time := inp.side_token }
  else if TaskExecutor.startedAfter st inp &&
      InactivityMonitor.is_inactive cfg.timeout_seconds (t0 + k)
        (TaskExecutor.monitorAfterErrors (t0 + k) st inp) then
    ExecIterResult.halt
      { task with status := TaskStatus.completed
                  output := joinLines (TaskExecutor.outputAfter st inp)
                  error :=
                    if !(st.error_lines ++ inp.new_errors).isEmpty then
                      joinLines (st.error_lines ++ inp.new_errors)
                    else task.error } fl
  else if t0 + k - t0 > 3600 then
    ExecIterResult.halt
      { task with status := TaskStatus.timeout
                  output := joinLines (TaskExecutor.outputAfter st inp)
                  error := ("Task exceeded maximum execution time".data) } fl
  else
    ExecIterResult.next
      { claude_started := TaskExecutor.startedAfter st inp
        last_rate_limit_check :=
          if TaskExecutor.sideGuard cfg t0 k st inp then t0 + k else st.last_rate_limit_check
        output_lines := TaskExecutor.outputAfter st inp
        error_lines := st.error_lines ++ inp.new_errors
        monitor := TaskExecutor.monitorAfterErrors (t0 + k) st inp }

/-- Environment of one `execute_task` call: whether the initial send
succeeds, and the per-iteration channel observations. -/
structure ExecEnv where
  send_ok : Bool
  iter : Nat → ExecIterInput

/-- The monitoring loop, driven by fuel (the one-hour cap bounds it in
fact; see `execLoop_total`).  Returns the finished task, the executor
flags and the exit iteration count. -/
def TaskExecutor.execLoop (cfg : ExecConfig) (t0 : Nat) (env : Nat → ExecIterInput)
    (task : NW.Task) (fl : ExecFlags) :
    Nat → Nat → ExecState → Option (NW.Task × ExecFlags × Nat)
  | 0, _, _ => none
  | fuel + 1, k, st =>
    match TaskExecutor.iterStep cfg t0 task k (env k) st fl with
    | ExecIterResult.halt t fl2 => some (t, fl2, k)
    | ExecIterResult.next st2 => TaskExecutor.execLoop cfg t0 env task fl fuel (k + 1) st2

/-- `TaskExecutor.execute_task` (lines 835-960): stamp `start_time` and set
`Running`; a failed send returns immediately as `Failed` (no `end_time`);
otherwise run the monitoring loop and stamp `end_time` on exit.  `mon0` is
the shared inactivity monitor's state on entry. -/
def TaskExecutor.execute_task (cfg : ExecConfig) (env : ExecEnv) (t0 : Nat)
    (task : NW.Task) (fl : ExecFlags) (mon0 : MonitorState) :
    Option (NW.Task × ExecFlags) :=
  let task1 := { task with status := TaskStatus.running, start_time := some t0 }
  if !env.send_ok then
    some ({ task1 with status := TaskStatus.failed
                       error := ("Failed to send command to terminal".data) }, fl)
  else
    (TaskExecutor.execLoop cfg t0 env.iter task1 fl 3602 0
        { claude_started := false
          last_rate_limit_check := t0
          output_lines := []
          error_lines := []
          monitor := mon0 }).map
      (fun r => ({ r.1 with end_time := some (t0 + r.2.2) }, r.2.1))

/-- Orchestrator state threaded through the `run_session` task loop
(lines 2281-2370): the queue index, the scheduler state, the executor's
rate-limit fields, the shared monitor, and the ids handed to the output
sink (`save_task_output` calls). -/
structure OrchState where
  task_index : Nat
  sched : SchedState
  exec_flags : ExecFlags
  monitor : MonitorState
  persisted : List Nat
deriving DecidableEq

/-- Environment of one `run_session` loop iteration: window validation
results, the task returned by `execute_task` together with the executor's
rate-limit fields after the call, wake-up times for the waits, the current
time, and the between-task content snapshot. -/
structure SessionEnv where
  window_ready : Bool
  exec_result : NW.Task
  exec_flag : Bool
  exec_token : Option (List Char)
  now : Nat
  wake : Nat
  wake2 : Nat
  snapshot : List Char
deriving DecidableEq

/-- The between-task delay block (lines 2344-2370): with the (new) index
still inside the queue, an opportunistic snapshot that parses as a rate
limit records it and waits for the reset; the index is not touched. -/
def TerminalAutomationSystem.interTaskDelay (queueLen : Nat) (env : SessionEnv)
    (st : OrchState) : OrchState :=
  if st.task_index < queueLen then
    if !env.snapshot.isEmpty && (RateLimitParser.parse_output env.snapshot).rate_limit_detected then
      { st with
        sched := Scheduler.wait_until_reset
          (Scheduler.update_rate_limit_info st.sched true
            (RateLimitParser.parse_output env.snapshot).reset_time) env.wake2 }
    else st
  else st

/-- One iteration of the `run_session` task loop (lines 2283-2370).  An
unavailable window retries the same index with nothing else changed.  A
rate-limit flag from the executor records the token, waits for the reset,
clears the executor flags and retries the same index.  A `Completed` task
is persisted and recorded before the index advances; any other terminal
status advances the index directly.  The delay block then runs when more
tasks remain. -/
def TerminalAutomationSystem.sessionStep (queueLen : Nat) (st : OrchState)
    (env : SessionEnv) : OrchState :=
  if !env.window_ready then st
  else
    let t := env.exec_result
    if env.exec_flag then
      { st with
        sched := Scheduler.wait_until_reset
          (Scheduler.update_rate_limit_info st.sched true env.exec_token) env.wake
        exec_flags := { rate_limit_detected := false, detected_reset_time := none } }
    else if t.status = TaskStatus.completed then
      TerminalAutomationSystem.interTaskDelay queueLen env
        { st with
          persisted := st.persisted ++ [t.id]
          sched := Scheduler.record_task_execution st.sched
          monitor := InactivityMonitor.reset env.now st.monitor
          task_index := st.task_index + 1 }
    else if t.status = TaskStatus.rate_limited then st
    else
      TerminalAutomationSystem.interTaskDelay queueLen env
        { st with task_index := st.task_index + 1 }

/-- The `run_session` task loop (line 2283: `while task_index < len(tasks)`),
driven by fuel; `cancel` models an external cancellation (the
`KeyboardInterrupt` handler, lines 2375-2377) observed between iterations.
Returns whether the loop ran to completion, with the final state. -/
def TerminalAutomationSystem.runSessionLoop (queueLen : Nat) (envs : Nat → SessionEnv)
    (cancel : Nat → Bool) : Nat → Nat → OrchState → Bool × OrchState
  | 0, _, st => (false, st)
  | fuel + 1, k, st =>
    if cancel k then (false, st)
    else if queueLen ≤ st.task_index then (true, st)
    else
      TerminalAutomationSystem.runSessionLoop queueLen envs cancel fuel (k + 1)
        (TerminalAutomationSystem.sessionStep queueLen st (envs k))

lemma dayStart_bounds (t : Nat) : dayStart t ≤ t ∧ t < dayStart t + secsPerDay := by
  unfold dayStart secsPerDay
  have h1 := Nat.div_add_mod t 86400
  have h2 : t % 86400 < 86400 := Nat.mod_lt t (by norm_num)
  omega

lemma replaceHM_lower (now hh mm rt : Nat) (hr : replaceHM now hh mm = some rt) :
    dayStart now ≤ rt := by
  unfold replaceHM at hr
  split at hr
  · have := Option.some.inj hr
    omega
  · exact absurd hr (by simp)

lemma tokenBranch_future (tok : List Char) (now r : Nat)
    (h : Scheduler.tokenBranch tok now = some r) : now < r := by
  unfold Scheduler.tokenBranch at h
  split at h
  · exact absurd h (by simp)
  · rename_i hh mm _
    split at h
    · exact absurd h (by simp)
    · rename_i rt hr
      have hds := replaceHM_lower now hh mm rt hr
      have hb := dayStart_bounds now
      have hrr := Option.some.inj h
      split at hrr <;> omega

lemma fallbackStart_future (cfg : SchedConfig) (now r : Nat)
    (h : Scheduler.fallbackStart cfg now = some r) : now < r := by
  unfold Scheduler.fallbackStart at h
  split at h
  · split at h
    · rename_i hh mm _ _
      split at h
      · exact absurd h (by simp)
      · rename_i ts hr
        have hds := replaceHM_lower now hh mm ts hr
        have hbnd := dayStart_bounds now
        have hrr := Option.some.inj h
        split at hrr <;> omega
    · exact absurd h (by simp)
  · exact absurd h (by simp)

/-- C5: `Scheduler.next_window_start` always returns a timestamp strictly
greater than the current time — via the detected-token branch when the
recorded token parses (rolled forward a day if not in the future), and via
the configured daily start time otherwise (rolled to tomorrow if today's
slot has passed). -/
theorem c5_next_window_start_strictly_future (cfg : SchedConfig) (st : SchedState)
    (now r : Nat) (h : Scheduler.next_window_start cfg st now = some r) : now < r := by
  unfold Scheduler.next_window_start at h
  split at h
  · rename_i tok _
    split at h
    · rename_i r0 hb
      exact Option.some.inj h ▸ tokenBranch_future tok now r0 hb
    · exact fallbackStart_future cfg now r h
  · exact fallbackStart_future cfg now r h

/-- Witness for C5 at a concrete scheduler: configured start `"04:00"`, no
token on record, now = 50000 (day 0); the fallback yields tomorrow 04:00. -/
theorem c5_next_window_start_strictly_future_witness :
    Scheduler.next_window_start
        { start_time := ("04:00".data), session_duration_hours := 5, max_tasks_per_session := 10 }
        { session_start_time := none, tasks_executed := 0, detected_reset_time := none,
          rate_limit_detected := false } 50000 = some 100800 ∧ 50000 < 100800 :=
  ⟨by decide,
   c5_next_window_start_strictly_future
     { start_time := ("04:00".data), session_duration_hours := 5, max_tasks_per_session := 10 }
     { session_start_time := none, tasks_executed := 0, detected_reset_time := none,
       rate_limit_detected := false } 50000 100800 (by decide)⟩

/-- C10: a recorded reset token that fails to parse (including `"13pm"`,
whose 12-hour adjustment produces hour 25 and makes the `replace` call
raise) is caught inside `next_window_start`, which then returns exactly the
configured-daily-start fallback it would return with no token recorded. -/
theorem c10_token_parse_failure_falls_back (cfg : SchedConfig) (st : SchedState)
    (now : Nat) (tok : List Char) (h : Scheduler.tokenBranch tok now = none) :
    Scheduler.next_window_start cfg { st with detected_reset_time := some tok } now =
      Scheduler.next_window_start cfg { st with detected_reset_time := none } now ∧
    (∀ n2 : Nat, Scheduler.tokenBranch ("13pm".data) n2 = none) := by
  constructor
  · simp [Scheduler.next_window_start, h]
  · intro n2
    have hp : Scheduler.parse_detected_reset ("13pm".data) = some (25, 0) := by decide
    simp [Scheduler.tokenBranch, hp, replaceHM]

/-- Witness for C10 at the malformed token `"13pm"` and now = 1000. -/
theorem c10_token_parse_failure_falls_back_witness :
    Scheduler.tokenBranch ("13pm".data) 1000 = none ∧
    (Scheduler.next_window_start
        { start_time := ("04:00".data), session_duration_hours := 5, max_tasks_per_session := 10 }
        { session_start_time := none, tasks_executed := 0,
          detected_reset_time := some ("13pm".data), rate_limit_detected := false } 1000 =
      Scheduler.next_window_start
        { start_time := ("04:00".data), session_duration_hours := 5, max_tasks_per_session := 10 }
        { session_start_time := none, tasks_executed := 0, detected_reset_time := none,
          rate_limit_detected := false } 1000 ∧
      (∀ n2 : Nat, Scheduler.tokenBranch ("13pm".data) n2 = none)) :=
  ⟨by decide,
   c10_token_parse_failure_falls_back
     { start_time := ("04:00".data), session_duration_hours := 5, max_tasks_per_session := 10 }
     { session_start_time := none, tasks_executed := 0, detected_reset_time := none,
       rate_limit_detected := false } 1000 ("13pm".data) (by decide)⟩

/-- C7 (corrected): `InactivityMonitor.reset` disarms the monitor and also
sets the last-activity timestamp to the current time; after a reset the
monitor reports inactive for no threshold, and the operation is idempotent. -/
theorem c7_reset_disarms_and_restamps (now : Nat) (m : MonitorState) :
    (InactivityMonitor.reset now m).is_active = false ∧
    (InactivityMonitor.reset now m).last_activity = now ∧
    (∀ tmo t, InactivityMonitor.is_inactive tmo t (InactivityMonitor.reset now m) = false) ∧
    InactivityMonitor.reset now (InactivityMonitor.reset now m) =
      InactivityMonitor.reset now m := by
  refine ⟨rfl, rfl, ?_, rfl⟩
  intro tmo t
  simp [InactivityMonitor.is_inactive, InactivityMonitor.reset]

/-- Counterexample to C7 as stated: `reset` does not leave the timestamp
unchanged — resetting at time 10 a monitor whose `last_activity` is 5
overwrites the timestamp with 10. -/
theorem c7_reset_changes_timestamp :
    (InactivityMonitor.reset 10 { last_activity := 5, is_active := true }).last_activity = 10 ∧
    ¬ ((InactivityMonitor.reset 10
        { last_activity := 5, is_active := true }).last_activity = 5) := by
  decide

/-- C1 (corrected): with an empty pre-flight capture the orchestrator
proceeds immediately exactly when the local hour is at least 4; before 4am
it assumes an active rate limit with token `"4am"` and waits for the
reset. -/
theorem c1_empty_capture_preflight_decision (hour : Nat) :
    TerminalAutomationSystem.check_and_wait_for_rate_limits [] hour =
      if hour < 4 then PreflightAction.waitUntilReset ("4am".data)
      else PreflightAction.proceed := by
  simp [TerminalAutomationSystem.check_and_wait_for_rate_limits]

/-- Counterexample to C1 as stated: at local hour 2 an empty capture does
trigger a wait (the assumed `"4am"` reset), so the first task is not sent
immediately at every clock time. -/
theorem c1_empty_capture_waits_before_4am :
    TerminalAutomationSystem.check_and_wait_for_rate_limits [] 2 =
      PreflightAction.waitUntilReset ("4am".data) ∧
    TerminalAutomationSystem.check_and_wait_for_rate_limits [] 2 ≠ PreflightAction.proceed := by
  decide

lemma interTaskDelay_task_index (queueLen : Nat) (env : SessionEnv) (s : OrchState) :
    (TerminalAutomationSystem.interTaskDelay queueLen env s).task_index = s.task_index := by
  unfold TerminalAutomationSystem.interTaskDelay
  split
  · split
    · rfl
    · rfl
  · rfl

lemma interTaskDelay_persisted (queueLen : Nat) (env : SessionEnv) (s : OrchState) :
    (TerminalAutomationSystem.interTaskDelay queueLen env s).persisted = s.persisted := by
  unfold TerminalAutomationSystem.interTaskDelay
  split
  · split
    · rfl
    · rfl
  · rfl

lemma interTaskDelay_of_not_detected (queueLen : Nat) (env : SessionEnv) (s : OrchState)
    (hsnap : (RateLimitParser.parse_output env.snapshot).rate_limit_detected = false) :
    TerminalAutomationSystem.interTaskDelay queueLen env s = s := by
  unfold TerminalAutomationSystem.interTaskDelay
  split
  · split
    · rename_i hcond
      rw [hsnap] at hcond
      simp at hcond
    · rfl
  · rfl

/-- C2: across one iteration of the session loop with the window available,
the queue index is unchanged when the attempt ended `RateLimited`, and
advances by exactly one when it ended `Completed`, `Failed` or `Timeout`
(the executor's rate-limit flag being clear on those terminal outcomes). -/
theorem c2_index_advance_policy (queueLen : Nat) (st : OrchState) (env : SessionEnv)
    (hw : env.window_ready = true) :
    (env.exec_result.status = TaskStatus.rate_limited →
      (TerminalAutomationSystem.sessionStep queueLen st env).task_index = st.task_index) ∧
    (env.exec_flag = false →
      (env.exec_result.status = TaskStatus.completed ∨
        env.exec_result.status = TaskStatus.failed ∨
        env.exec_result.status = TaskStatus.timeout) →
      (TerminalAutomationSystem.sessionStep queueLen st env).task_index =
        st.task_index + 1) := by
  constructor
  · intro hrl
    by_cases hf : env.exec_flag
    · simp [TerminalAutomationSystem.sessionStep, hw, hf]
    · simp only [Bool.not_eq_true] at hf
      simp [TerminalAutomationSystem.sessionStep, hw, hf, hrl]
  · intro hf hterm
    rcases hterm with h | h | h <;>
      simp [TerminalAutomationSystem.sessionStep, hw, hf, h, interTaskDelay_task_index]

def wCfg : SchedConfig :=
  { start_time := ("04:00".data), session_duration_hours := 5, max_tasks_per_session := 10 }

def wSchedState : SchedState :=
  { session_start_time := some 0, tasks_executed := 0, detected_reset_time := none,
    rate_limit_detected := false }

def wOrch : OrchState :=
  { task_index := 0, sched := wSchedState,
    exec_flags := { rate_limit_detected := false, detected_reset_time := none },
    monitor := { last_activity := 0, is_active := false }, persisted := [] }

def wTask (s : TaskStatus) : NW.Task :=
  { id := 7, content := ("write code".data), status := s, start_time := some 0,
    end_time := some 5, output := [], error := [] }

def wEnv (t : NW.Task) (flag : Bool) : SessionEnv :=
  { window_ready := true, exec_result := t, exec_flag := flag, exec_token := none,
    now := 6, wake := 100, wake2 := 100, snapshot := [] }

/-- Witness for C2 at a concrete state: a rate-limited attempt leaves the
index at 0, a completed attempt advances it to 1. -/
theorem c2_index_advance_policy_witness :
    (TerminalAutomationSystem.sessionStep 3 wOrch
        (wEnv (wTask TaskStatus.rate_limited) true)).task_index = wOrch.task_index ∧
    (TerminalAutomationSystem.sessionStep 3 wOrch
        (wEnv (wTask TaskStatus.completed) false)).task_index = wOrch.task_index + 1 :=
  ⟨(c2_index_advance_policy 3 wOrch (wEnv (wTask TaskStatus.rate_limited) true)
      (by decide)).1 (by decide),
   (c2_index_advance_policy 3 wOrch (wEnv (wTask TaskStatus.completed) false)
      (by decide)).2 (by decide) (Or.inl (by decide))⟩

/-- C3 (corrected): across one session-loop iteration (window available,
no rate-limit flag, no between-task detection), a `Completed` attempt is
persisted to the output sink and recorded via `record_task_execution`
before the index advances; a `Failed` or `Timeout` attempt advances the
index by one with no persistence and no `record_task_execution` call. -/
theorem c3_persist_record_only_completed (queueLen : Nat) (st : OrchState) (env : SessionEnv)
    (hw : env.window_ready = true) (hf : env.exec_flag = false)
    (hsnap : (RateLimitParser.parse_output env.snapshot).rate_limit_detected = false) :
    (env.exec_result.status = TaskStatus.completed →
      (TerminalAutomationSystem.sessionStep queueLen st env).persisted =
        st.persisted ++ [env.exec_result.id] ∧
      (TerminalAutomationSystem.sessionStep queueLen st env).sched.tasks_executed =
        st.sched.tasks_executed + 1 ∧
      (TerminalAutomationSystem.sessionStep queueLen st env).task_index =
        st.task_index + 1) ∧
    ((env.exec_result.status = TaskStatus.failed ∨
        env.exec_result.status = TaskStatus.timeout) →
      (TerminalAutomationSystem.sessionStep queueLen st env).persisted = st.persisted ∧
      (TerminalAutomationSystem.sessionStep queueLen st env).sched.tasks_executed =
        st.sched.tasks_executed ∧
      (TerminalAutomationSystem.sessionStep queueLen st env).task_index =
        st.task_index + 1) := by
  constructor
  · intro h
    simp [TerminalAutomationSystem.sessionStep, hw, hf, h,
      interTaskDelay_of_not_detected _ _ _ hsnap, Scheduler.record_task_execution]
  · intro hterm
    rcases hterm with h | h <;>
      simp [TerminalAutomationSystem.sessionStep, hw, hf, h,
        interTaskDelay_of_not_detected _ _ _ hsnap]

/-- Witness for C3 at a concrete state: the completed attempt is persisted
and counted before the advance. -/
theorem c3_persist_record_only_completed_witness :
    (TerminalAutomationSystem.sessionStep 3 wOrch
        (wEnv (wTask TaskStatus.completed) false)).persisted = wOrch.persisted ++ [7] ∧
    (TerminalAutomationSystem.sessionStep 3 wOrch
        (wEnv (wTask TaskStatus.completed) false)).sched.tasks_executed =
      wOrch.sched.tasks_executed + 1 ∧
    (TerminalAutomationSystem.sessionStep 3 wOrch
        (wEnv (wTask TaskStatus.completed) false)).task_index = wOrch.task_index + 1 :=
  (c3_persist_record_only_completed 3 wOrch (wEnv (wTask TaskStatus.completed) false)
      (by decide) (by decide) (by decide)).1 (by decide)

/-- Counterexample to C3 as stated: a `Failed` attempt advances the index
without any persistence and without `record_task_execution` — the output
sink and the execution counter are untouched. -/
theorem c3_failed_advances_without_persist :
    (TerminalAutomationSystem.sessionStep 3 wOrch
        (wEnv (wTask TaskStatus.failed) false)).persisted = wOrch.persisted ∧
    (TerminalAutomationSystem.sessionStep 3 wOrch
        (wEnv (wTask TaskStatus.failed) false)).sched.tasks_executed =
      wOrch.sched.tasks_executed ∧
    (TerminalAutomationSystem.sessionStep 3 wOrch
        (wEnv (wTask TaskStatus.failed) false)).task_index = wOrch.task_index + 1 := by
  decide

/-- C9: the session loop never stops because `is_within_session_limit`
turned false — with the queue not yet exhausted and no cancellation the
loop always takes another iteration even under a false session limit, and
it exits successfully exactly when the index reaches the queue length. -/
theorem c9_session_limit_is_advisory (cfg : SchedConfig) (queueLen : Nat)
    (envs : Nat → SessionEnv) (cancel : Nat → Bool) (fuel k now : Nat) (st : OrchState)
    (hlim : Scheduler.is_within_session_limit cfg st.sched now = false)
    (hidx : st.task_index < queueLen) (hc : cancel k = false) :
    TerminalAutomationSystem.runSessionLoop queueLen envs cancel (fuel + 1) k st =
      TerminalAutomationSystem.runSessionLoop queueLen envs cancel fuel (k + 1)
        (TerminalAutomationSystem.sessionStep queueLen st (envs k)) ∧
    (∀ st2 : OrchState, queueLen ≤ st2.task_index →
      TerminalAutomationSystem.runSessionLoop queueLen envs cancel (fuel + 1) k st2 =
        (true, st2)) := by
  constructor
  · simp [TerminalAutomationSystem.runSessionLoop, hc, Nat.not_le_of_lt hidx]
  · intro st2 h2
    simp [TerminalAutomationSystem.runSessionLoop, hc, h2]

def wSchedOverLimit : SchedState :=
  { session_start_time := some 0, tasks_executed := 10, detected_reset_time := none,
    rate_limit_detected := false }

def wOrchOverLimit : OrchState :=
  { task_index := 0, sched := wSchedOverLimit,
    exec_flags := { rate_limit_detected := false, detected_reset_time := none },
    monitor := { last_activity := 0, is_active := false }, persisted := [] }

/-- Witness for C9: with the task counter at the session maximum (limit
false) and one task still queued, the loop takes another iteration. -/
theorem c9_session_limit_is_advisory_witness :
    Scheduler.is_within_session_limit wCfg wOrchOverLimit.sched 99 = false ∧
    TerminalAutomationSystem.runSessionLoop 1
        (fun _ => wEnv (wTask TaskStatus.completed) false) (fun _ => false) 3 0 wOrchOverLimit =
      TerminalAutomationSystem.runSessionLoop 1
        (fun _ => wEnv (wTask TaskStatus.completed) false) (fun _ => false) 2 1
        (TerminalAutomationSystem.sessionStep 1 wOrchOverLimit
          (wEnv (wTask TaskStatus.completed) false)) :=
  ⟨by decide,
   (c9_session_limit_is_advisory wCfg 1 (fun _ => wEnv (wTask TaskStatus.completed) false)
      (fun _ => false) 2 0 99 wOrchOverLimit (by decide) (by decide) (by decide)).1⟩

lemma iterStep_halt_frame (cfg : ExecConfig) (t0 : Nat) (task : NW.Task) (k : Nat)
    (inp : ExecIterInput) (st : ExecState) (fl : ExecFlags) (t2 : NW.Task) (fl2 : ExecFlags)
    (h : TaskExecutor.iterStep cfg t0 task k inp st fl = ExecIterResult.halt t2 fl2) :
    t2.start_time = task.start_time ∧ t2.end_time = task.end_time := by
  unfold TaskExecutor.iterStep at h
  repeat' split at h
  all_goals
    first
      | (injection h with h1 h2; subst h1; exact ⟨rfl, rfl⟩)
      | exact absurd h (by simp)

lemma iterStep_next_le (cfg : ExecConfig) (t0 : Nat) (task : NW.Task) (k : Nat)
    (inp : ExecIterInput) (st : ExecState) (fl : ExecFlags) (st2 : ExecState)
    (h : TaskExecutor.iterStep cfg t0 task k inp st fl = ExecIterResult.next st2) :
    k ≤ 3600 := by
  unfold TaskExecutor.iterStep at h
  repeat' split at h
  all_goals first
    | omega
    | exact absurd h (by simp)

lemma execLoop_frame (cfg : ExecConfig) (t0 : Nat) (env : Nat → ExecIterInput)
    (task : NW.Task) (fl : ExecFlags) :
    ∀ fuel k st t2 fl2 k2,
      TaskExecutor.execLoop cfg t0 env task fl fuel k st = some (t2, fl2, k2) →
      t2.start_time = task.start_time ∧ t2.end_time = task.end_time := by
  intro fuel
  induction fuel with
  | zero =>
    intro k st t2 fl2 k2 h
    exact absurd h (by simp [TaskExecutor.execLoop])
  | succ n ih =>
    intro k st t2 fl2 k2 h
    unfold TaskExecutor.execLoop at h
    split at h
    · rename_i t fl3 heq
      have hfr := iterStep_halt_frame cfg t0 task k (env k) st fl t fl3 heq
      have h1 := congrArg Prod.fst (Option.some.inj h)
      simp at h1
      exact h1 ▸ hfr
    · exact ih _ _ _ _ _ h

lemma execLoop_total (cfg : ExecConfig) (t0 : Nat) (env : Nat → ExecIterInput)
    (task : NW.Task) (fl : ExecFlags) :
    ∀ fuel k st, k ≤ 3601 → 3602 ≤ k + fuel →
      (TaskExecutor.execLoop cfg t0 env task fl fuel k st).isSome = true := by
  intro fuel
  induction fuel with
  | zero =>
    intro k st h1 h2
    omega
  | succ n ih =>
    intro k st h1 h2
    unfold TaskExecutor.execLoop
    split
    · rfl
    · rename_i st2 heq
      have hk := iterStep_next_le cfg t0 task k (env k) st fl st2 heq
      exact ih (k + 1) st2 (by omega) (by omega)

lemma execute_task_total (cfg : ExecConfig) (env : ExecEnv) (t0 : Nat)
    (task : NW.Task) (fl : ExecFlags) (mon0 : MonitorState) :
    (TaskExecutor.execute_task cfg env t0 task fl mon0).isSome = true := by
  unfold TaskExecutor.execute_task
  by_cases hs : env.send_ok
  · simp only [hs, Bool.not_true, Bool.false_eq_true, if_false]
    have := execLoop_total cfg t0 env.iter
      { task with status := TaskStatus.running, start_time := some t0 } fl 3602 0
      { claude_started := false, last_rate_limit_check := t0, output_lines := [],
        error_lines := [], monitor := mon0 } (by omega) (by omega)
    rcases ho : TaskExecutor.execLoop cfg t0 env.iter
        { task with status := TaskStatus.running, start_time := some t0 } fl 3602 0
        { claude_started := false, last_rate_limit_check := t0, output_lines := [],
          error_lines := [], monitor := mon0 } with _ | v
    · rw [ho] at this
      simp at this
    · simp
  · simp only [Bool.not_eq_true] at hs
    simp [hs]

/-- C8 (corrected): every task returned by `execute_task` has `start_time`
stamped on entry; `end_time` is stamped on exit of the monitoring loop on
every path that reaches it, but on the send-failure path the method
returns immediately with status `Failed` and the send error, leaving
`end_time` untouched. -/
theorem c8_timestamps_on_return_paths (cfg : ExecConfig) (env : ExecEnv) (t0 : Nat)
    (task : NW.Task) (fl : ExecFlags) (mon0 : MonitorState) (r : NW.Task) (fl1 : ExecFlags)
    (h : TaskExecutor.execute_task cfg env t0 task fl mon0 = some (r, fl1)) :
    r.start_time = some t0 ∧
    (env.send_ok = true → r.end_time.isSome = true) ∧
    (env.send_ok = false →
      r.end_time = task.end_time ∧ r.status = TaskStatus.failed ∧
      r.error = ("Failed to send command to terminal".data)) := by
  unfold TaskExecutor.execute_task at h
  by_cases hs : env.send_ok = true
  · simp only [hs, Bool.not_true, Bool.false_eq_true, if_false] at h
    rw [Option.map_eq_some'] at h
    obtain ⟨⟨t, fl2, k2⟩, hl, hf⟩ := h
    have hfr := execLoop_frame cfg t0 env.iter
      { task with status := TaskStatus.running, start_time := some t0 } fl
      3602 0 _ t fl2 k2 hl
    have hr : ({ t with end_time := some (t0 + k2) }, fl2) = (r, fl1) := hf
    have hr1 := congrArg Prod.fst hr
    simp at hr1
    refine ⟨?_, fun _ => ?_, fun hc => absurd hs (by simp [hc])⟩
    · rw [← hr1]
      exact hfr.1
    · rw [← hr1]
      rfl
  · simp only [Bool.not_eq_true] at hs
    simp only [hs, Bool.not_false, if_true] at h
    have hr := Option.some.inj h
    have hr1 := congrArg Prod.fst hr
    simp at hr1
    refine ⟨?_, fun hc => absurd hc (by simp [hs]), fun _ => ⟨?_, ?_, ?_⟩⟩ <;> rw [← hr1] <;> rfl

/-- Counterexample to C8 as stated: when the send fails, `execute_task`
returns immediately with status `Failed` and the task's `end_time` still
unset. -/
theorem c8_send_failure_leaves_end_time_unset :
    TaskExecutor.execute_task { timeout_seconds := 600, is_existing_window := false }
        { send_ok := false,
          iter := fun _ =>
            { alive := true, new_output := [], new_errors := [], side_detect := false,
              side_token := none } } 100
        { id := 0, content := ("write code".data), status := TaskStatus.pending,
          start_time := none, end_time := none, output := [], error := [] }
        { rate_limit_detected := false, detected_reset_time := none }
        { last_activity := 0, is_active := false } =
      some ({ id := 0, content := ("write code".data), status := TaskStatus.failed,
              start_time := some 100, end_time := none, output := [],
              error := ("Failed to send command to terminal".data) },
            { rate_limit_detected := false, detected_reset_time := none }) := by
  decide

def w8Cfg : ExecConfig := { timeout_seconds := 2, is_existing_window := false }

def w8Env : ExecEnv :=
  { send_ok := true
    iter := fun k =>
      if k = 0 then
        { alive := true, new_output := [("thinking".data)], new_errors := [],
          side_detect := false, side_token := none }
      else
        { alive := true, new_output := [], new_errors := [], side_detect := false,
          side_token := none } }

def w8Task : NW.Task :=
  { id := 0, content := ("write code".data), status := TaskStatus.pending,
    start_time := none, end_time := none, output := [], error := [] }

def w8Done : NW.Task :=
  { id := 0, content := ("write code".data), status := TaskStatus.completed,
    start_time := some 100, end_time := some 102, output := ("thinking".data), error := [] }

/-- Witness for C8: a send that succeeds, one `"thinking"` chunk, then
silence; the task completes at `t0 + 2` with both timestamps stamped. -/
theorem c8_timestamps_on_return_paths_witness :
    TaskExecutor.execute_task w8Cfg w8Env 100 w8Task
        { rate_limit_detected := false, detected_reset_time := none }
        { last_activity := 0, is_active := false } =
      some (w8Done, { rate_limit_detected := false, detected_reset_time := none }) ∧
    w8Done.start_time = some 100 ∧ w8Done.end_time.isSome = true :=
  ⟨by decide,
   (c8_timestamps_on_return_paths w8Cfg w8Env 100 w8Task
      { rate_limit_detected := false, detected_reset_time := none }
      { last_activity := 0, is_active := false } w8Done
      { rate_limit_detected := false, detected_reset_time := none } (by decide)).1,
   (c8_timestamps_on_return_paths w8Cfg w8Env 100 w8Task
      { rate_limit_detected := false, detected_reset_time := none }
      { last_activity := 0, is_active := false } w8Done
      { rate_limit_detected := false, detected_reset_time := none } (by decide)).2.1 rfl⟩

/-- C6: in any monitoring iteration with a live channel, if a rate-limit
notice is detected this iteration — in the freshly captured output or by
the side-channel probe — then even with the inactivity threshold met the
iteration halts the attempt as `RateLimited`, never as `Completed`. -/
theorem c6_rate_limit_beats_inactivity_completed (cfg : ExecConfig) (t0 : Nat)
    (task : NW.Task) (k : Nat) (inp : ExecIterInput) (st : ExecState) (fl : ExecFlags)
    (halive : inp.alive = true)
    (hdet : (!inp.new_output.isEmpty &&
          (TaskExecutor.outputDetect st inp).rate_limit_detected) = true ∨
        (TaskExecutor.sideGuard cfg t0 k st inp && inp.side_detect) = true)
    (hinact : InactivityMonitor.is_inactive cfg.timeout_seconds (t0 + k)
        (TaskExecutor.monitorAfterErrors (t0 + k) st inp) = true) :
    ∃ t2 fl2, TaskExecutor.iterStep cfg t0 task k inp st fl = ExecIterResult.halt t2 fl2 ∧
      t2.status = TaskStatus.rate_limited := by
  by_cases h1 : (!inp.new_output.isEmpty &&
      (TaskExecutor.outputDetect st inp).rate_limit_detected) = true
  · refine
      ⟨{ task with
          status := TaskStatus.rate_limited
          output := joinLines (TaskExecutor.outputAfter st inp) },
        { rate_limit_detected := true
          detected_reset_time := (TaskExecutor.outputDetect st inp).reset_time },
        ?_, rfl⟩
    unfold TaskExecutor.iterStep
    rw [if_neg (by simp [halive]), if_pos h1]
  · have h2 : (TaskExecutor.sideGuard cfg t0 k st inp && inp.side_detect) = true :=
      hdet.resolve_left h1
    refine
      ⟨{ task with
          status := TaskStatus.rate_limited
          output := joinLines (TaskExecutor.outputAfter st inp) },
        { rate_limit_detected := true
          detected_reset_time := inp.side_token },
        ?_, rfl⟩
    unfold TaskExecutor.iterStep
    rw [if_neg (by simp [halive]), if_neg h1, if_pos h2]

def w6Cfg : ExecConfig := { timeout_seconds := 600, is_existing_window := true }

def w6St : ExecState :=
  { claude_started := true, last_rate_limit_check := 0, output_lines := [],
    error_lines := [], monitor := { last_activity := 0, is_active := true } }

def w6Inp : ExecIterInput :=
  { alive := true, new_output := [], new_errors := [], side_detect := true,
    side_token := some ("4am".data) }

/-- Witness for C6: an existing-window iteration at `t0 + k = 700` with the
monitor inactive past the 600s threshold and the side-channel probe
reporting a rate limit; the step halts as `RateLimited`. -/
theorem c6_rate_limit_beats_inactivity_completed_witness :
    (TaskExecutor.sideGuard w6Cfg 0 700 w6St w6Inp && w6Inp.side_detect) = true ∧
    InactivityMonitor.is_inactive w6Cfg.timeout_seconds 700
      (TaskExecutor.monitorAfterErrors 700 w6St w6Inp) = true ∧
    (∃ t2 fl2,
      TaskExecutor.iterStep w6Cfg 0 w8Task 700 w6Inp w6St
          { rate_limit_detected := false, detected_reset_time := none } =
        ExecIterResult.halt t2 fl2 ∧ t2.status = TaskStatus.rate_limited) :=
  ⟨by decide, by decide,
   c6_rate_limit_beats_inactivity_completed w6Cfg 0 w8Task 700 w6Inp w6St
     { rate_limit_detected := false, detected_reset_time := none } (by decide)
     (Or.inr (by decide)) (by decide)⟩

lemma isPrefixOf_append_left (x y : List Char) : x.isPrefixOf (x ++ y) = true := by
  induction x with
  | nil => simp [List.isPrefixOf]
  | cons c cs ih => simp [List.isPrefixOf, ih]

lemma drop_pre (pre rest : List Char) (n : Nat) :
    (pre ++ rest).drop (pre.length + n) = rest.drop n := by
  rw [← List.drop_drop, List.drop_left]

lemma isSubstrAt_oob (needle hay : List Char) (i : Nat) (hne : needle ≠ [])
    (hi : hay.length ≤ i) : isSubstrAt needle hay i = false := by
  unfold isSubstrAt
  rw [List.drop_eq_nil_of_le hi]
  cases needle with
  | nil => exact absurd rfl hne
  | cons c cs => rfl

lemma containsSub_false_all (needle hay : List Char) (hne : needle ≠ [])
    (hc : containsSub needle hay = false) : ∀ i, isSubstrAt needle hay i = false := by
  intro i
  by_cases hi : hay.length < i
  · exact isSubstrAt_oob needle hay i hne (Nat.le_of_lt hi)
  · have hmem : i ∈ List.range (hay.length + 1) := List.mem_range.mpr (by omega)
    unfold containsSub at hc
    rw [List.any_eq_false] at hc
    cases hx : isSubstrAt needle hay i with
    | false => rfl
    | true => exact absurd hx (hc i hmem)

lemma digit_cases (c : Char) (h : isDigitCh c = true) :
    c = '0' ∨ c = '1' ∨ c = '2' ∨ c = '3' ∨ c = '4' ∨ c = '5' ∨ c = '6' ∨ c = '7' ∨
    c = '8' ∨ c = '9' := by
  simpa [isDigitCh] using h

lemma digit_not_pyspace (c : Char) (h : isDigitCh c = true) : isPySpace c = false := by
  rcases digit_cases c h with h|h|h|h|h|h|h|h|h|h <;> subst h <;> decide

lemma beq_a_digit_false (c : Char) (h : isDigitCh c = true) : ('a' == c) = false := by
  rcases digit_cases c h with h|h|h|h|h|h|h|h|h|h <;> subst h <;> decide

lemma searchFrom_eq_none (f : Nat → Option α) (h : ∀ i, f i = none) :
    ∀ fuel i, searchFrom f i fuel = none := by
  intro fuel
  induction fuel with
  | zero => intro i; rfl
  | succ n ih =>
    intro i
    unfold searchFrom
    rw [h i]
    exact ih (i + 1)

lemma searchFrom_pinned (f : Nat → Option α) (p : Nat) (g : α)
    (hnone : ∀ j, j < p → f j = none) (hp : f p = some g) :
    ∀ fuel i, i ≤ p → p < i + fuel → searchFrom f i fuel = some g := by
  intro fuel
  induction fuel with
  | zero => intro i h1 h2; omega
  | succ n ih =>
    intro i h1 h2
    unfold searchFrom
    rcases Nat.eq_or_lt_of_le h1 with he | hlt
    · rw [he, hp]
    · rw [hnone i hlt]
      exact ih (i + 1) hlt (by omega)

lemma litAt_sub (lit s : List Char) (i j : Nat) (h : litAt lit s i = some j) :
    isSubstrAt lit s i = true := by
  unfold litAt at h
  split at h
  · assumption
  · exact absurd h (by simp)

lemma tryP1_sub (s : List Char) (i : Nat) (g : List Char × Option (List Char))
    (h : tryP1 s i = some g) : isSubstrAt ("5-hour limit reached".data) s i = true := by
  unfold tryP1 at h
  split at h
  · exact absurd h (by simp)
  · rename_i j hl
    exact litAt_sub _ s i j hl

lemma tryP2_sub (s : List Char) (i : Nat) (g : List Char × Option (List Char))
    (h : tryP2 s i = some g) : isSubstrAt ("reset".data) s i = true := by
  unfold tryP2 at h
  split at h
  · exact absurd h (by simp)
  · rename_i j hl
    exact litAt_sub _ s i j hl

lemma searchP1_none (low : List Char)
    (h5 : containsSub ("5-hour limit reached".data) low = false) :
    searchPat tryP1 low = none := by
  apply searchFrom_eq_none
  intro i
  rcases hv : tryP1 low i with _ | g
  · rfl
  · have := tryP1_sub low i g hv
    rw [containsSub_false_all _ low (by decide) h5 i] at this
    exact absurd this (by simp)


lemma tryP2_at (pre ds mer post : List Char)
    (hmer : mer = "am".data ∨ mer = "pm".data)
    (hds : (∃ d, ds = [d] ∧ isDigitCh d = true) ∨
      (∃ d1 d2, ds = [d1, d2] ∧ isDigitCh d1 = true ∧ isDigitCh d2 = true)) :
    tryP2 (pre ++ ('r' :: 'e' :: 's' :: 'e' :: 't' :: 's' :: ' ' :: (ds ++ (mer ++ post))))
        pre.length = some (ds ++ mer, none) := by
  have ham : ("am".data) = ['a', 'm'] := rfl
  have hpm : ("pm".data) = ['p', 'm'] := rfl
  have hres : ("reset".data) = ['r', 'e', 's', 'e', 't'] := rfl
  have hSp : isPySpace ' ' = true := by decide
  have hA : isDigitCh 'a' = false := by decide
  have hP : isDigitCh 'p' = false := by decide
  rcases hds with ⟨d, hd1, hdig⟩ | ⟨d1, d2, hd1, hdig1, hdig2⟩ <;> subst hd1 <;>
    rcases hmer with hm | hm <;> subst hm
  · simp [tryP2, litAt, isSubstrAt, chAt, optS, afterSpBare, sp1, sp0, spaceRunLen,
      List.takeWhile, bareTok, digits12ThenLit, Option.orElse, List.drop_left, drop_pre,
      Nat.add_assoc, List.isPrefixOf, ham, hpm, hres, hSp, hA, hP, hdig,
      digit_not_pyspace _ hdig, beq_a_digit_false _ hdig]
  · simp [tryP2, litAt, isSubstrAt, chAt, optS, afterSpBare, sp1, sp0, spaceRunLen,
      List.takeWhile, bareTok, digits12ThenLit, Option.orElse, List.drop_left, drop_pre,
      Nat.add_assoc, List.isPrefixOf, ham, hpm, hres, hSp, hA, hP, hdig,
      digit_not_pyspace _ hdig, beq_a_digit_false _ hdig]
  · simp [tryP2, litAt, isSubstrAt, chAt, optS, afterSpBare, sp1, sp0, spaceRunLen,
      List.takeWhile, bareTok, digits12ThenLit, Option.orElse, List.drop_left, drop_pre,
      Nat.add_assoc, List.isPrefixOf, ham, hpm, hres, hSp, hA, hP, hdig1, hdig2,
      digit_not_pyspace _ hdig1, beq_a_digit_false _ hdig1, beq_a_digit_false _ hdig2]
  · simp [tryP2, litAt, isSubstrAt, chAt, optS, afterSpBare, sp1, sp0, spaceRunLen,
      List.takeWhile, bareTok, digits12ThenLit, Option.orElse, List.drop_left, drop_pre,
      Nat.add_assoc, List.isPrefixOf, ham, hpm, hres, hSp, hA, hP, hdig1, hdig2,
      digit_not_pyspace _ hdig1, beq_a_digit_false _ hdig1, beq_a_digit_false _ hdig2]

lemma isPrefixOf_self (x : List Char) : x.isPrefixOf x = true := by
  have h := isPrefixOf_append_left x []
  simpa using h

lemma searchP2_pinned (pre ds mer post : List Char)
    (hmer : mer = "am".data ∨ mer = "pm".data)
    (hds : (∃ d, ds = [d] ∧ isDigitCh d = true) ∨
      (∃ d1 d2, ds = [d1, d2] ∧ isDigitCh d1 = true ∧ isDigitCh d2 = true))
    (huniq : ∀ j, isSubstrAt ("reset".data)
        (pre ++ ('r' :: 'e' :: 's' :: 'e' :: 't' :: 's' :: ' ' :: (ds ++ (mer ++ post)))) j =
          true → j = pre.length) :
    searchPat tryP2
        (pre ++ ('r' :: 'e' :: 's' :: 'e' :: 't' :: 's' :: ' ' :: (ds ++ (mer ++ post)))) =
      some (ds ++ mer, none) := by
  unfold searchPat
  have hnone : ∀ j, j < pre.length →
      tryP2 (pre ++ ('r' :: 'e' :: 's' :: 'e' :: 't' :: 's' :: ' ' ::
        (ds ++ (mer ++ post)))) j = none := by
    intro j hj
    rcases hv : tryP2 (pre ++ ('r' :: 'e' :: 's' :: 'e' :: 't' :: 's' :: ' ' ::
        (ds ++ (mer ++ post)))) j with _ | g
    · rfl
    · have hs := tryP2_sub _ j g hv
      have heq := huniq j hs
      omega
  have hb : pre.length < 0 +
      ((pre ++ ('r' :: 'e' :: 's' :: 'e' :: 't' :: 's' :: ' ' ::
        (ds ++ (mer ++ post)))).length + 1) := by
    simp only [List.length_append, List.length_cons]
    omega
  exact searchFrom_pinned _ pre.length _ hnone (tryP2_at pre ds mer post hmer hds) _ 0
    (Nat.zero_le _) hb

lemma contains_am_or_pm (ds mer : List Char) (hmer : mer = "am".data ∨ mer = "pm".data) :
    (containsSub ("am".data) (ds ++ mer) || containsSub ("pm".data) (ds ++ mer)) = true := by
  have hsub : isSubstrAt mer (ds ++ mer) ds.length = true := by
    unfold isSubstrAt
    rw [List.drop_left]
    exact isPrefixOf_self mer
  have hmm : containsSub mer (ds ++ mer) = true := by
    unfold containsSub
    rw [List.any_eq_true]
    refine ⟨ds.length, List.mem_range.mpr ?_, hsub⟩
    simp [List.length_append]
    omega
  rcases hmer with hm | hm <;> subst hm
  · rw [hmm]
    rfl
  · rw [hmm]
    simp

lemma postProcess_bare (ds mer : List Char) (hmer : mer = "am".data ∨ mer = "pm".data) :
    postProcess (ds ++ mer) none = ds ++ mer := by
  unfold postProcess
  rw [contains_am_or_pm ds mer hmer]
  simp

/-- C4 (corrected): for every text sample whose lowercasing contains a
"limit reached" clause followed on the same line by a unique
`resets <h><am|pm>` phrase with a bare-hour token (one or two digits, with
a meridiem, and no `5-hour limit reached` wording), `parse_output` reports
a detected rate limit and extracts exactly that token, case-insensitively
(the token is returned lowercased, verbatim).  Colon-form tokens such as
`6:30pm` are instead rebuilt with a space before the meridiem (see the
counterexample). -/
theorem c4_parse_token_extraction (s pre2 ds mer post : List Char) (q : Nat)
    (hlow : strLower s =
      pre2 ++ ('r' :: 'e' :: 's' :: 'e' :: 't' :: 's' :: ' ' :: (ds ++ (mer ++ post))))
    (hmer : mer = "am".data ∨ mer = "pm".data)
    (hds : (∃ d, ds = [d] ∧ isDigitCh d = true) ∨
      (∃ d1 d2, ds = [d1, d2] ∧ isDigitCh d1 = true ∧ isDigitCh d2 = true))
    (hlr : isSubstrAt ("limit reached".data) (strLower s) q = true)
    (hq : q + 13 ≤ pre2.length)
    (hnl : segNoNewline (strLower s) (q + 13) pre2.length = true)
    (h5 : containsSub ("5-hour limit reached".data) (strLower s) = false)
    (huniq : (List.range ((strLower s).length + 1)).all
        (fun i => !isSubstrAt ("reset".data) (strLower s) i || i == pre2.length) = true) :
    (RateLimitParser.parse_output s).rate_limit_detected = true ∧
    (RateLimitParser.parse_output s).reset_time = some (ds ++ mer) := by
  have hplen : pre2.length + 7 ≤ (strLower s).length := by
    rw [hlow]
    simp [List.length_append]
  have huniq2 : ∀ j, isSubstrAt ("reset".data) (strLower s) j = true → j = pre2.length := by
    intro j hj
    by_cases hle : j ≤ (strLower s).length
    · have hmem : j ∈ List.range ((strLower s).length + 1) := List.mem_range.mpr (by omega)
      have hx := (List.all_eq_true.mp huniq) j hmem
      rw [hj] at hx
      simpa using hx
    · rw [isSubstrAt_oob _ _ j (by decide) (by omega)] at hj
      exact absurd hj (by simp)
  have hresets : isSubstrAt ("resets".data) (strLower s) pre2.length = true := by
    rw [hlow]
    unfold isSubstrAt
    rw [List.drop_left]
    simp [List.isPrefixOf]
  have hdet : dotStarMatch2 ("limit reached".data) ("resets".data) (strLower s) = true := by
    unfold dotStarMatch2
    rw [List.any_eq_true]
    refine ⟨q, List.mem_range.mpr (by omega), ?_⟩
    rw [Bool.and_eq_true]
    refine ⟨hlr, ?_⟩
    rw [List.any_eq_true]
    refine ⟨pre2.length, List.mem_range.mpr (by omega), ?_⟩
    have h13 : ("limit reached".data).length = 13 := rfl
    rw [Bool.and_eq_true, Bool.and_eq_true, h13]
    exact ⟨⟨by simp [hq], hresets⟩, hnl⟩
  have hdetAll : RateLimitParser.detectPatterns (strLower s) = true := by
    unfold RateLimitParser.detectPatterns
    rw [hdet]
    simp
  have hp1 : searchPat tryP1 (strLower s) = none := searchP1_none (strLower s) h5
  have hp2 : searchPat tryP2 (strLower s) = some (ds ++ mer, none) := by
    rw [hlow]
    apply searchP2_pinned pre2 ds mer post hmer hds
    intro j hj
    apply huniq2 j
    rw [hlow]
    exact hj
  have hext : RateLimitParser.extract_reset_time s = some (ds ++ mer) := by
    unfold RateLimitParser.extract_reset_time
    simp only [hp1, hp2]
    rw [postProcess_bare ds mer hmer]
  constructor
  · unfold RateLimitParser.parse_output
    rw [hdetAll]
    rfl
  · unfold RateLimitParser.parse_output
    rw [hdetAll]
    simpa using hext

theorem c4_parse_token_extraction_witness :
    (RateLimitParser.parse_output
        ("Limit reached ∙ resets 4AM /upgrade".data)).rate_limit_detected = true ∧
    (RateLimitParser.parse_output ("Limit reached ∙ resets 4AM /upgrade".data)).reset_time =
      some (['4'] ++ ("am".data)) :=
  c4_parse_token_extraction ("Limit reached ∙ resets 4AM /upgrade".data)
    ("limit reached ∙ ".data) ['4'] ("am".data) (" /upgrade".data) 0
    (by decide) (Or.inl rfl) (Or.inl ⟨'4', rfl, by decide⟩) (by decide) (by decide)
    (by decide) (by decide) (by decide)

theorem c4_colon_token_normalized_with_space :
    (RateLimitParser.parse_output
        ("limit reached resets 6:30pm".data)).rate_limit_detected = true ∧
    (RateLimitParser.parse_output ("limit reached resets 6:30pm".data)).reset_time =
      some ("6:30 pm".data) ∧
    (RateLimitParser.parse_output ("limit reached resets 6:30pm".data)).reset_time ≠
      some ("6:30pm".data) := by
  decide
